import Mathlib

/-!
Verification development for the gtd-backend capture pipeline.

This file gives a shallow embedding, in Lean 4, of the parts of the
code that govern the capture lifecycle state machine:

* `app/rtm_commit.py` — the RTM commit worker (`_compute_commit_entries`,
  `_build_smart_add`, `_classify_commit_error`, `_commit_one_capture`,
  `_poll_once` selection, `_ensure_anchor_for_pending_approvals`);
* `app/clarification.py` — the clarification worker
  (`_should_retry_clarification`, the per-capture body of `_poll_once`);
* `app/db_utils.py` — `transactional_session`, the busy-retry wrapper;
* `app/main.py` — `_ensure_proposed`, `approve_capture`, `reject_capture`;
* `app/daily_highlights.py` — `build_candidate_pool`.

Conventions of the embedding:

* Python strings are Lean `String`s; `s.strip()`, `s.lower()`, `s.upper()`
  and the substring test `a in b` are re-implemented below over `List Char`
  so that every definition evaluates inside the kernel.
* Database rows are Lean structures mirroring `app/models.py`; a SQLAlchemy
  query filter becomes a boolean predicate, `ORDER BY` a `mergeSort`, and
  `LIMIT n` a `take n`.
* Timestamps are `Int` seconds; `datetime` subtraction is integer
  subtraction.
* External effects (the RTM API, the LLM API) are modelled by environment
  records holding the outcome each call would produce, and worker bodies
  additionally return an event trace (`external` calls and `persist`ed
  snapshots) so that ordering claims about durability can be stated.
* A parsed clarification JSON dict is modelled by the `Clar` structure
  holding exactly the keys the commit worker reads; a capture whose
  `clarify_json` is absent or unparseable carries `none` (PY:
  `_parse_json_maybe(...) or {}` becomes `Option.getD {}`).
-/

namespace GTD

/-- Python `s.lower()` (ASCII case mapping, as used by the code's
keyword checks). -/
def lowerStr (s : String) : String := ⟨s.data.map Char.toLower⟩

/-- Python `s.upper()`. -/
def upperStr (s : String) : String := ⟨s.data.map Char.toUpper⟩

/-- Python `s.strip()`: drop whitespace from both ends. -/
def stripStr (s : String) : String :=
  ⟨((s.data.dropWhile Char.isWhitespace).reverse.dropWhile Char.isWhitespace).reverse⟩

/-- `needle` occurs as a contiguous sublist of the second argument. -/
def infixChars (needle : List Char) : List Char → Bool
  | [] => needle.isEmpty
  | c :: rest => needle.isPrefixOf (c :: rest) || infixChars needle rest

/-- Python `needle in hay` on strings. -/
def strContains (hay needle : String) : Bool := infixChars needle.data hay.data

/-- Python `a or b` on strings (first operand unless it is empty/falsy). -/
def pyOr (a b : String) : String := if a = "" then b else a

/-- The parsed clarification payload: the keys of the JSON dict that the
commit worker and the approval routes read.  `none` stands for an absent
or `null` key (both give Python `None` through `dict.get(k)`). -/
structure Clar where
  type : Option String := none
  clarified_text : Option String := none
  project_name : Option String := none
  project_shortname : Option String := none
  next_action : Option String := none
  suggested_context : Option String := none
  due_date : Option String := none
  notes : Option String := none
deriving DecidableEq, Repr, Inhabited

/-- PY `(clar.get(k) or "").strip()`. -/
def getStripped (o : Option String) : String := stripStr (o.getD "")

/-- The tag list assembled inside `_build_smart_add`
(`app/rtm_commit.py:104-112`). -/
def build_smart_add_tags (include_na : Bool) (text_for_tags : String) : List String :=
  (if include_na then ["#na"] else []) ++
  (if strContains text_for_tags "terveys" then ["#terveys"] else []) ++
  (if strContains text_for_tags "vero" then ["#vero"] else []) ++
  (if strContains text_for_tags "joulu" then ["#joulu"] else [])

/-- `_build_smart_add` (`app/rtm_commit.py:97-120`): task name, then the
joined tags when non-empty, then `^due_date` when non-empty, joined by
single spaces. -/
def build_smart_add (task_name : String) (include_na : Bool) (due_date : String)
    (text_for_tags : String) : String :=
  let tags := build_smart_add_tags include_na text_for_tags
  let parts := [task_name] ++
    (if tags.isEmpty then [] else [" ".intercalate tags]) ++
    (if due_date = "" then [] else ["^" ++ due_date])
  " ".intercalate parts

/-- `_compute_commit_entries` (`app/rtm_commit.py:123-183`).  Returns the
list of `(smart_add, task_name)` pairs; the `.error` case is the
`raise ValueError` for a project without a shortname. -/
def compute_commit_entries (clar : Clar) : Except String (List (String × String)) :=
  let ctype := getStripped clar.type
  let project_name := getStripped clar.project_name
  let project_shortname := upperStr (getStripped clar.project_shortname)
  let next_action := getStripped clar.next_action
  let clarified_text := getStripped clar.clarified_text
  let due_date := getStripped clar.due_date
  let text_for_tags_base := lowerStr (" ".intercalate [clarified_text, project_name, next_action])
  if ctype = "project" then
    let base := pyOr project_name (pyOr clarified_text (pyOr next_action "Projekti"))
    let shortname := project_shortname
    if shortname = "" then
      Except.error "project_shortname is required for projects"
    else
      let project_task_name := shortname ++ " - §§§ - " ++ base
      let project_smart_add := build_smart_add project_task_name false due_date
        (project_task_name ++ " " ++ text_for_tags_base)
      let first_next_action := pyOr next_action
        (shortname ++ " --- Määritä ensimmäinen next action")
      let action_smart_add := build_smart_add first_next_action true due_date
        (first_next_action ++ " " ++ text_for_tags_base)
      Except.ok [(project_smart_add, project_task_name), (action_smart_add, first_next_action)]
  else
    let task_name := pyOr next_action (pyOr clarified_text "Tehtävä")
    Except.ok [(build_smart_add task_name true due_date (task_name ++ " " ++ text_for_tags_base),
      task_name)]

/-- The `captures` row (`app/models.py:8-94`), restricted to the columns
the worker loops and approval routes read or write.  Defaults mirror the
column defaults. -/
structure Capture where
  raw_text : String := ""
  clarify_json : Option Clar := none
  clarify_status : String := "pending"
  clarify_attempt_count : Nat := 0
  last_clarify_attempt_at : Option Int := none
  decision_status : String := "proposed"
  decision_at : Option Int := none
  commit_status : String := "pending"
  last_commit_attempt_at : Option Int := none
  commit_attempt_count : Nat := 0
  commit_error_message : Option String := none
  rtm_task_id : Option String := none
  rtm_taskseries_id : Option String := none
  rtm_list_id : Option String := none
deriving DecidableEq, Repr, Inhabited

/-- A Python exception as the classifier sees it: class name and message. -/
structure PyExc where
  ename : String
  emsg : String
deriving DecidableEq, Repr, Inhabited

/-- `_classify_commit_error` (`app/rtm_commit.py:46-82`). -/
def classify_commit_error (e : PyExc) : String × String :=
  let error_type := e.ename
  let error_msg := e.emsg
  if strContains error_type "Timeout" || strContains (lowerStr error_msg) "timeout" then
    ("unknown", "Timeout during RTM commit: " ++ error_msg ++ ". Manual review required.")
  else if strContains (lowerStr error_msg) "auth" || strContains error_msg "401" ||
      strContains error_msg "403" then
    ("auth_failed", "RTM authentication failed: " ++ error_msg ++ ". User must re-authenticate.")
  else if strContains (lowerStr error_msg) "circuit" then
    ("failed", "RTM service temporarily unavailable (circuit breaker open): " ++ error_msg)
  else if strContains (lowerStr error_msg) "connection" || strContains (lowerStr error_msg) "network" ||
      strContains (lowerStr error_msg) "server" || strContains (lowerStr error_msg) "500" ||
      strContains (lowerStr error_msg) "503" then
    ("failed", "RTM temporary failure (retryable): " ++ error_msg)
  else
    ("failed", "RTM commit failed: " ++ error_msg)

/-- The id triple returned by `rtm.add_task`. -/
structure TaskIds where
  task_id : Option String := none
  taskseries_id : Option String := none
  list_id : Option String := none
deriving DecidableEq, Repr, Inhabited

/-- Outcomes the external world would hand the commit worker during one
`_commit_one_capture` run: the stored auth token, the result of
`create_timeline`, and the result of the i-th `add_task` call. -/
structure CommitEnv where
  auth_token : Option String
  timeline : Except PyExc String
  add_results : Nat → Except PyExc TaskIds

/-- One step of a worker, as recorded in an event trace: an outbound call
to an external service, or a committed write of a capture snapshot to
the store (`db.add` + `transactional_session` commit). -/
inductive CEvent where
  | external (callName : String)
  | persist (c : Capture)
deriving DecidableEq, Repr

def CEvent.isExternal : CEvent → Bool
  | .external _ => true
  | .persist _ => false

/-- The `for smart_add, task_name in commit_entries` loop of
`_commit_one_capture` (`app/rtm_commit.py:255-268`): sequential `add_task`
calls, stopping at the first exception. -/
def run_add_tasks (env : CommitEnv) : Nat → List (String × String) →
    Except PyExc (List TaskIds) × List CEvent
  | _, [] => (Except.ok [], [])
  | i, _ :: rest =>
    match env.add_results i with
    | Except.error exc => (Except.error exc, [CEvent.external "rtm.tasks.add"])
    | Except.ok ids =>
      let r := run_add_tasks env (i + 1) rest
      (r.1.map (ids :: ·), CEvent.external "rtm.tasks.add" :: r.2)

/-- The `try` block of `_commit_one_capture` (`app/rtm_commit.py:237-257`):
auth lookup (a store read, raising when absent), `create_timeline`, then
the `add_task` loop.  Returns the created ids or the first exception,
together with the external calls actually issued. -/
def attempt_rtm (env : CommitEnv) (entries : List (String × String)) :
    Except PyExc (List TaskIds) × List CEvent :=
  match env.auth_token with
  | none =>
    (Except.error ⟨"RuntimeError", "No RTM auth token available (user must authenticate)"⟩, [])
  | some _ =>
    match env.timeline with
    | Except.error exc => (Except.error exc, [CEvent.external "rtm.timelines.create"])
    | Except.ok _ =>
      let r := run_add_tasks env 0 entries
      (r.1, CEvent.external "rtm.timelines.create" :: r.2)

/-- `MAX_COMMIT_ATTEMPTS = config.MAX_COMMIT_RETRIES` (default 5). -/
def MAX_COMMIT_ATTEMPTS : Nat := 5

/-- `_commit_one_capture` (`app/rtm_commit.py:188-334`).  Returns the
capture as left in the store and the event trace; the `.error` case is an
exception escaping the function (the defensive `ValueError` of
`_compute_commit_entries`, or Python's `IndexError` on an empty id list —
both unreachable from this worker). -/
def commit_one_capture (env : CommitEnv) (now : Int) (capture : Capture) :
    Except String (Capture × List CEvent) :=
  let clar := capture.clarify_json.getD {}
  let ctype := getStripped clar.type
  if ctype = "project" ∧ upperStr (getStripped clar.project_shortname) = "" then
    let c' := { capture with
      commit_status := "failed",
      last_commit_attempt_at := some now,
      commit_error_message := some "Missing project_shortname in clarification" }
    Except.ok (c', [CEvent.persist c'])
  else
    match compute_commit_entries clar with
    | Except.error m => Except.error m
    | Except.ok commit_entries =>
      let c1 := { capture with
        commit_attempt_count := capture.commit_attempt_count + 1,
        last_commit_attempt_at := some now }
      match attempt_rtm env commit_entries with
      | (Except.ok created_task_ids, evs) =>
        match created_task_ids.head? with
        | none => Except.error "IndexError: created_task_ids[0]"
        | some ids0 =>
          let c2 := { c1 with
            commit_status := "committed",
            commit_error_message := none,
            rtm_task_id := ids0.task_id,
            rtm_taskseries_id := ids0.taskseries_id,
            rtm_list_id := ids0.list_id }
          Except.ok (c2, evs ++ [CEvent.persist c2])
      | (Except.error exc, evs) =>
        let cls := classify_commit_error exc
        let error_status := if ctype = "project" then "unknown" else cls.1
        let error_msg :=
          if ctype = "project" then "Project commit failed in multi-task flow: " ++ cls.2
          else cls.2
        let status :=
          if MAX_COMMIT_ATTEMPTS ≤ c1.commit_attempt_count then
            if error_status ≠ "unknown" then "permanently_failed" else "unknown"
          else
            if error_status = "auth_failed" ∨ error_status = "unknown" then error_status
            else "failed"
        let c2 := { c1 with
          commit_status := status,
          commit_error_message := some error_msg }
        Except.ok (c2, evs ++ [CEvent.persist c2])

/-- The capture as stored after `_commit_one_capture`; on an escaping
exception the loop's `except` swallows it before any persist, leaving the
row unchanged. -/
def commit_one_result (env : CommitEnv) (now : Int) (c : Capture) : Capture :=
  match commit_one_capture env now c with
  | Except.ok (c', _) => c'
  | Except.error _ => c

/-- The trace of one `_commit_one_capture` run. -/
def commitTrace (env : CommitEnv) (now : Int) (c : Capture) : List CEvent :=
  match commit_one_capture env now c with
  | Except.ok (_, t) => t
  | Except.error _ => []

/-- The commit poll's selection filter (`app/rtm_commit.py:523-531`):
`decision_status == "approved"` and `commit_status` in
`["pending", "failed"]`. -/
def selected_for_commit (c : Capture) : Bool :=
  c.decision_status == "approved" &&
    (c.commit_status == "pending" || c.commit_status == "failed")

/-- The effect of one commit-worker poll cycle on a single capture:
`_poll_once` runs `_commit_one_capture` exactly on the captures its query
selected and leaves every other row untouched. -/
def commit_poll_step (env : CommitEnv) (now : Int) (c : Capture) : Capture :=
  if selected_for_commit c then commit_one_result env now c else c

/-- `MAX_CLARIFY_ATTEMPTS = config.MAX_CLARIFY_RETRIES` (default 5). -/
def MAX_CLARIFY_ATTEMPTS : Nat := 5

/-- `config.CLARIFY_RETRY_DELAYS.get(n, 0)` (`app/config.py:133-139`):
seconds of backoff before attempt `n`. -/
def CLARIFY_RETRY_DELAYS (n : Nat) : Nat :=
  match n with
  | 1 => 0
  | 2 => 5 * 60
  | 3 => 30 * 60
  | 4 => 2 * 60 * 60
  | _ => 0

/-- `_should_retry_clarification` (`app/clarification.py:136-169`). -/
def should_retry_clarification (capture : Capture) (now : Int) : Bool :=
  if capture.clarify_status = "pending" then true
  else if capture.clarify_status ≠ "failed" then false
  else if MAX_CLARIFY_ATTEMPTS ≤ capture.clarify_attempt_count then false
  else
    match capture.last_clarify_attempt_at with
    | none => true
    | some last =>
      let delay_seconds := CLARIFY_RETRY_DELAYS (capture.clarify_attempt_count + 1)
      (delay_seconds : Int) ≤ now - last

/-- What the LLM call of `_clarify_capture` would return for this capture:
`none` on any failure, or the validated clarification payload. -/
structure ClarifyEnv where
  result : Option Clar

/-- The payload `_poll_once` stores in `clarify_json` when clarification
fails (only the `type` key is part of the modelled `Clar` view;
`app/clarification.py:408-436` also records status/message/attempts). -/
def clarifyErrorInfo : Clar := { type := some "error" }

/-- The per-capture body of the clarification `_poll_once`
(`app/clarification.py:383-464`), after the `should_retry` gate:
persist `in_progress` + incremented attempt count, call the LLM, then
persist the outcome. -/
def clarify_capture_step (env : ClarifyEnv) (now : Int) (capture : Capture) :
    Capture × List CEvent :=
  let c1 := { capture with
    clarify_status := "in_progress",
    clarify_attempt_count := capture.clarify_attempt_count + 1 }
  let cbase := { c1 with last_clarify_attempt_at := some now }
  match env.result with
  | none =>
    if MAX_CLARIFY_ATTEMPTS ≤ cbase.clarify_attempt_count then
      let c2 := { cbase with
        clarify_status := "permanently_failed",
        clarify_json := some clarifyErrorInfo }
      (c2, [CEvent.persist c1, CEvent.external "llm", CEvent.persist c2])
    else
      let c2 := { cbase with
        clarify_status := "failed",
        clarify_json := some clarifyErrorInfo }
      (c2, [CEvent.persist c1, CEvent.external "llm", CEvent.persist c2])
  | some result =>
    let c2 := { cbase with
      clarify_status := "completed",
      clarify_json := some result }
    (c2, [CEvent.persist c1, CEvent.external "llm", CEvent.persist c2])

/-- The clarification poll's selection filter
(`app/clarification.py:357-365`): `decision_status == "proposed"` and
`clarify_status` in `["pending", "failed"]`. -/
def selected_for_clarify (c : Capture) : Bool :=
  c.decision_status == "proposed" &&
    (c.clarify_status == "pending" || c.clarify_status == "failed")

/-- The effect of one clarification poll cycle on a single capture. -/
def clarify_poll_step (env : ClarifyEnv) (now : Int) (c : Capture) : Capture :=
  if selected_for_clarify c && should_retry_clarification c now then
    (clarify_capture_step env now c).1
  else c

/-- The trace of one clarification poll cycle for a single capture. -/
def clarifyTrace (env : ClarifyEnv) (now : Int) (c : Capture) : List CEvent :=
  if selected_for_clarify c && should_retry_clarification c now then
    (clarify_capture_step env now c).2
  else []

/-- The capture snapshots committed to the store before the first
outbound external call of a trace. -/
def persists_before_first_external (t : List CEvent) : List Capture :=
  (t.takeWhile (fun e => ! e.isExternal)).filterMap
    (fun e => match e with | CEvent.persist c => some c | CEvent.external _ => none)

/-- Outcome of one `session.commit()` inside `transactional_session`:
success, or an exception with its message. -/
inductive CommitOutcome where
  | ok
  | err (msg : String)

/-- The SQLite-BUSY signature test of `transactional_session`
(`app/db_utils.py:70-74`), applied to `str(e).lower()`. -/
def is_busy_error (error_msg : String) : Bool :=
  strContains error_msg "database is locked" ||
  strContains error_msg "busy" ||
  strContains error_msg "unable to open database file"

/-- Result of executing a `with transactional_session(session): pass`
statement: committed; or the `session.commit()` exception re-raised; or
the `RuntimeError` that `contextlib` raises when a `@contextmanager`
generator yields a second time instead of stopping.  `delays` is the
sequence of backoff sleeps (in seconds) performed before the statement
finished. -/
inductive TxResult where
  | committed (delays : List ℚ)
  | raised (msg : String) (delays : List ℚ)
  | generatorDidNotStop (delays : List ℚ)
deriving DecidableEq, Repr

/-- `0.1 * (2 ** (attempt - 1))` (`app/db_utils.py:78`). -/
def txDelay (attempt : Nat) : ℚ := (1 / 10) * 2 ^ (attempt - 1)

/-- The runtime behaviour of `with transactional_session(session): pass`
— the only usage pattern of `transactional_session` in this repository —
for a session whose i-th `session.commit()` call would produce
`outcomes i`.

`transactional_session` (`app/db_utils.py:19-119`) is a `@contextmanager`
generator.  Entering the `with` statement runs the generator to its first
`yield` (first loop iteration, `attempt = 0`); the empty body completes;
`__exit__` then resumes the generator, which executes `session.commit()`
(this is `outcomes 0`).  From there the generator text reads:

* commit succeeds → the function returns → `StopIteration` →
  the `with` statement completes normally (no sleeps);
* commit raises with the busy signature and `attempt = 1 ≤ max_retries` →
  rollback, sleep `0.1·2⁰` s, `continue` — but the loop then reaches
  `yield` a *second* time, and `contextlib`'s `__exit__` rejects a
  generator that did not stop with a `RuntimeError`: the commit is never
  retried and the propagated error is not the storage error;
* commit raises without the busy signature (or `max_retries = 0`) →
  rollback and immediate re-raise of the commit error (no sleep).

Only `outcomes 0` is ever consulted: iterations of the written
`while attempt <= max_retries` loop beyond the first commit attempt are
unreachable under the context-manager protocol. -/
def with_transactional_session (outcomes : Nat → CommitOutcome) (max_retries : Nat := 5) :
    TxResult :=
  match outcomes 0 with
  | CommitOutcome.ok => TxResult.committed []
  | CommitOutcome.err msg =>
    if is_busy_error (lowerStr msg) ∧ 1 ≤ max_retries then
      TxResult.generatorDidNotStop [txDelay 1]
    else
      TxResult.raised msg []

/-- The `anchors` row (`app/models.py:97-125`): what
`_ensure_anchor_for_pending_approvals` consults before acting.  An
"active anchor valid for today" is one with `kind = approval_anchor`,
`status = active`, `valid_until >= today`. -/
structure AnchorEnv where
  has_proposed : Bool
  has_active_anchor : Bool
  auth_token : Option String
  exists_check : Except String Bool
  timeline : Except String String
  add_task : Except String TaskIds

/-- Steps of `_ensure_anchor_for_pending_approvals`, in execution order:
the `rtm.tasks.getList` duplicate probe, the commit expiring stale
anchors, the commit inserting the new anchor row, the RTM creation calls,
and the commit recording `external_state.status`. -/
inductive AEvent where
  | rtmGetList
  | persistExpire
  | persistNewAnchor
  | rtmCreateTimeline
  | rtmAddTask
  | persistState (status : String)
deriving DecidableEq, Repr

/-- `_ensure_anchor_for_pending_approvals` (`app/rtm_commit.py:382-500`)
as the sequence of store commits and external calls it performs. -/
def ensure_anchor_for_pending_approvals (env : AnchorEnv) : List AEvent :=
  if env.has_proposed = false then []
  else if env.has_active_anchor then []
  else
    match env.auth_token with
    | none => []
    | some _ =>
      match env.exists_check with
      | Except.error _ => [AEvent.rtmGetList]
      | Except.ok anchor_exists =>
        [AEvent.rtmGetList, AEvent.persistExpire, AEvent.persistNewAnchor] ++
        (if anchor_exists then [AEvent.persistState "already_exists"]
         else
           match env.timeline with
           | Except.error _ => [AEvent.rtmCreateTimeline, AEvent.persistState "unknown"]
           | Except.ok _ =>
             match env.add_task with
             | Except.error _ =>
               [AEvent.rtmCreateTimeline, AEvent.rtmAddTask, AEvent.persistState "unknown"]
             | Except.ok _ =>
               [AEvent.rtmCreateTimeline, AEvent.rtmAddTask, AEvent.persistState "committed"])

/-- The POST form fields the approval routes read
(`app/main.py:519-540`); `none` is an absent field. -/
structure FormData where
  project_name : Option String := none
  project_shortname : Option String := none
  next_action : Option String := none
  is_next_action : Option String := none
  suggested_context : Option String := none
  due_date : Option String := none
  notes : Option String := none
deriving DecidableEq, Repr, Inhabited

/-- PY `form.get(k) or None`: an empty or absent field becomes `None`. -/
def noneIfEmpty (o : Option String) : Option String :=
  match o with
  | none => none
  | some s => if s = "" then none else some s

/-- The `clar.update({...})` block shared by `approve_capture`,
`reject_capture` and `approval_update_clarification`
(`app/main.py:519-541`): merge form fields into the stored clarification.
`default_type` is the second argument of `clar.get("type", ...)`. -/
def update_clar_from_form (default_type : String) (clar : Clar) (f : FormData) : Clar :=
  let project_name := f.project_name.getD ""
  let next_action := f.next_action.getD ""
  let is_next_action := f.is_next_action == some "on"
  let clar_type :=
    if project_name ≠ "" then "project"
    else if is_next_action then "next_action"
    else clar.type.getD default_type
  { clar with
    type := some clar_type,
    clarified_text :=
      if project_name ≠ "" then some project_name
      else if next_action ≠ "" then some next_action
      else clar.clarified_text,
    project_name := noneIfEmpty (some project_name),
    project_shortname := noneIfEmpty (some (upperStr (f.project_shortname.getD ""))),
    next_action := noneIfEmpty (some next_action),
    suggested_context := noneIfEmpty f.suggested_context,
    due_date := noneIfEmpty f.due_date,
    notes := noneIfEmpty f.notes }

/-- `approve_capture` (`app/main.py:494-554`).  `_ensure_proposed` raises
`HTTP 400` before anything is written; `form = none` models the
`except` branch where form parsing failed and the clarification is left
as it was.  The `.error` case is the raised `HTTPException`, after which
nothing is persisted. -/
def approve_capture (form : Option FormData) (now : Int) (capture : Capture) :
    Except String Capture :=
  if capture.decision_status ≠ "proposed" then
    Except.error ("Capture is already " ++ capture.decision_status)
  else
    let c1 :=
      match form with
      | none => capture
      | some f =>
        let clar := capture.clarify_json.getD {}
        { capture with clarify_json := some (update_clar_from_form "next_action" clar f) }
    Except.ok { c1 with decision_status := "approved", decision_at := some now }

/-- `reject_capture` (`app/main.py:557-617`), identical to approve except
for the final status. -/
def reject_capture (form : Option FormData) (now : Int) (capture : Capture) :
    Except String Capture :=
  if capture.decision_status ≠ "proposed" then
    Except.error ("Capture is already " ++ capture.decision_status)
  else
    let c1 :=
      match form with
      | none => capture
      | some f =>
        let clar := capture.clarify_json.getD {}
        { capture with clarify_json := some (update_clar_from_form "next_action" clar f) }
    Except.ok { c1 with decision_status := "rejected", decision_at := some now }

/-- The capture row after the approve route ran: unchanged when the route
raised (`_ensure_proposed` fires before any write). -/
def apply_approve (form : Option FormData) (now : Int) (c : Capture) : Capture :=
  match approve_capture form now c with
  | Except.ok c' => c'
  | Except.error _ => c

/-- The capture row after the reject route ran. -/
def apply_reject (form : Option FormData) (now : Int) (c : Capture) : Capture :=
  match reject_capture form now c with
  | Except.ok c' => c'
  | Except.error _ => c

/-- The `rtm_tasks` cache row (`app/models.py:167-209`), restricted to the
columns `build_candidate_pool` filters and sorts on. -/
structure RtmTask where
  rtm_task_id : String := ""
  name : String := ""
  created_at : Int := 0
  rtm_project_id : Option String := none
  rtm_completed : Bool := false
  tags : Option String := none
  times_suggested : Nat := 0
  last_suggested_at : Option Int := none
deriving DecidableEq, Repr, Inhabited

/-- `HIGHLIGHT_LABEL`: the user-owned highlight marker (`#highlight` per
the module docstring of `app/daily_highlights.py`; `config.py` defines no
override). -/
def HIGHLIGHT_LABEL : String := "#highlight"

def MAX_SUGGESTIONS_14D : Nat := 3

def SUGGESTION_WINDOW_DAYS : Nat := 14

def BAND_A_LIMIT : Nat := 5

def BAND_B_LIMIT : Nat := 5

def DAY_SECONDS : Int := 86400

/-- SQL `col ILIKE '%pat%'` on a non-null column: case-insensitive
containment. -/
def ilike_contains (col pat : String) : Bool :=
  strContains (lowerStr col) (lowerStr pat)

/-- The hard filters shared by both bands (`app/daily_highlights.py:286-288`
and `305-307`): no parent project, not completed, and NOT
`tags ILIKE '%#highlight%'`.  SQL three-valued logic keeps a row only when
the condition is TRUE, so a `NULL` `tags` column fails the negated ILIKE. -/
def band_base_keep (t : RtmTask) : Bool :=
  t.rtm_project_id.isNone && t.rtm_completed == false &&
    (match t.tags with
     | none => false
     | some s => ! ilike_contains s HIGHLIGHT_LABEL)

/-- The anti-nag filter (`app/daily_highlights.py:292-295` and `311-314`):
keep when `times_suggested < 3` OR `last_suggested_at < now - 14 days`
(a `NULL` `last_suggested_at` makes the comparison NULL, not TRUE). -/
def anti_nag_keep (now : Int) (t : RtmTask) : Bool :=
  decide (t.times_suggested < MAX_SUGGESTIONS_14D) ||
    (match t.last_suggested_at with
     | some d => decide (d < now - (SUGGESTION_WINDOW_DAYS : Int) * DAY_SECONDS)
     | none => false)

/-- Band A row filter: older than 14 days plus the shared filters. -/
def band_a_pred (now : Int) (t : RtmTask) : Bool :=
  band_base_keep t && decide (t.created_at < now - 14 * DAY_SECONDS) && anti_nag_keep now t

/-- Band B row filter: created within the last 7 days plus the shared
filters. -/
def band_b_pred (now : Int) (t : RtmTask) : Bool :=
  band_base_keep t && decide (now - 7 * DAY_SECONDS ≤ t.created_at) && anti_nag_keep now t

/-- `ORDER BY last_suggested_at ASC NULLS FIRST`. -/
def band_a_le (a b : RtmTask) : Bool :=
  match a.last_suggested_at, b.last_suggested_at with
  | none, _ => true
  | some _, none => false
  | some x, some y => decide (x ≤ y)

/-- `ORDER BY created_at DESC`. -/
def band_b_le (a b : RtmTask) : Bool := decide (b.created_at ≤ a.created_at)

/-- `build_candidate_pool` (`app/daily_highlights.py:262-321`): the two
band queries (filter, order, limit) concatenated. -/
def build_candidate_pool (now : Int) (db : List RtmTask) : List RtmTask :=
  let band_a := ((db.filter (band_a_pred now)).mergeSort band_a_le).take BAND_A_LIMIT
  let band_b := ((db.filter (band_b_pred now)).mergeSort band_b_le).take BAND_B_LIMIT
  band_a ++ band_b

/-! ## Concrete environments used by witnesses -/
/-- An RTM environment where every call succeeds. -/
def envOkC : CommitEnv :=
  { auth_token := some "tok",
    timeline := Except.ok "tl1",
    add_results := fun _ =>
      Except.ok { task_id := some "T1", taskseries_id := some "S1", list_id := some "L1" } }

/-- An RTM environment where `create_timeline` times out. -/
def envTimeoutC : CommitEnv :=
  { auth_token := some "tok",
    timeline := Except.error ⟨"ReadTimeout", "read timed out"⟩,
    add_results := fun _ => Except.error ⟨"ReadTimeout", "read timed out"⟩ }

/-- A capture stuck in the `unknown` commit state. -/
def unknownCap : Capture :=
  { raw_text := "osta maali",
    decision_status := "approved",
    commit_status := "unknown",
    commit_attempt_count := 2,
    rtm_task_id := none }

/-- A cached task suggested three times in the last two days. -/
def naggedTask : RtmTask :=
  { rtm_task_id := "42", name := "soita isälle", created_at := 0,
    tags := some "[]", times_suggested := 3, last_suggested_at := some 999000 }

/-- A concrete project clarification, shortname present. -/
def projClar : Clar :=
  { type := some "project",
    clarified_text := some "Auton hankinta",
    project_name := some "Auton hankinta",
    project_shortname := some "auto",
    next_action := some "AUTO --- Selvitä budjetti" }

/-- A capture whose clarification payload was absent or unparseable. -/
def plainCap : Capture := { decision_status := "approved", commit_status := "pending" }

/-! ## C3 — missing project shortname is NOT a terminal failure in the
code -/
/-- An approved project capture whose clarification lacks
`project_shortname`. -/
def missingShortCap : Capture :=
  { raw_text := "remontoi asunto",
    decision_status := "approved",
    commit_status := "pending",
    clarify_json := some { type := some "project", project_name := some "Asunnon remontti" } }

/-! ## C5 — `permanently_failed` clarification state -/
/-- The LLM environment returning a successful clarification. -/
def envClarOk : ClarifyEnv :=
  { result :=
      some { type := some "next_action", next_action := some "Soita äidille",
             clarified_text := some "Soita äidille" } }

/-- The LLM environment where the call fails. -/
def envClarFail : ClarifyEnv := { result := none }

/-- A proposed capture whose four clarification attempts all failed. -/
def fourFailCap : Capture :=
  { raw_text := "jotain epäselvää",
    decision_status := "proposed",
    clarify_status := "failed",
    clarify_attempt_count := 4,
    last_clarify_attempt_at := some 0 }

/-- A capture already permanently failed. -/
def permFailedCap : Capture :=
  { raw_text := "z", decision_status := "proposed",
    clarify_status := "permanently_failed", clarify_attempt_count := 5 }

/-- An approved capture clarified as a standalone next action. -/
def nextActionCap : Capture :=
  { raw_text := "soita äidille",
    decision_status := "approved",
    commit_status := "pending",
    clarify_json := some { type := some "next_action", next_action := some "Soita äidille" } }

/-! ## C6 — order of steps in the anchor manager -/
/-- An anchor run where proposed captures exist, no active anchor is
valid today, auth is present, and the duplicate probe finds an existing
incomplete task with the anchor name. -/
def anchorEnvFound : AnchorEnv :=
  { has_proposed := true,
    has_active_anchor := false,
    auth_token := some "tok",
    exists_check := Except.ok true,
    timeline := Except.ok "tl1",
    add_task := Except.ok { task_id := some "T9", taskseries_id := some "S9", list_id := some "L9" } }

/-- An anchor run identical to `anchorEnvFound` except that the probe
reports no existing task. -/
def anchorEnvFresh : AnchorEnv :=
  { anchorEnvFound with exists_check := Except.ok false }

/-- Two busy failures, then success. -/
def outsBusy2 : Nat → CommitOutcome :=
  fun i => if i < 2 then CommitOutcome.err "database is locked" else CommitOutcome.ok

/-- Every commit attempt fails busy. -/
def outsBusyAll : Nat → CommitOutcome :=
  fun _ => CommitOutcome.err "database is locked"

/-- An immediate non-busy failure. -/
def outsPlainFail : Nat → CommitOutcome :=
  fun _ => CommitOutcome.err "UNIQUE constraint failed"

/-- Every commit attempt succeeds. -/
def outsAllOk : Nat → CommitOutcome := fun _ => CommitOutcome.ok

theorem na_not_mem_tags_false (t : String) : "#na" ∉ build_smart_add_tags false t := by
  unfold build_smart_add_tags
  intro h
  simp only [List.mem_append] at h
  rcases h with ((h | h) | h) | h <;> split at h <;> simp_all

theorem na_mem_tags_true (t : String) : "#na" ∈ build_smart_add_tags true t := by
  unfold build_smart_add_tags
  exact List.mem_append.mpr (Or.inl (List.mem_append.mpr (Or.inl
    (List.mem_append.mpr (Or.inl (List.mem_singleton.mpr rfl))))))

/-! ## C1 — `unknown` commit state is a trap for the commit poll -/
/-- C1: a capture whose `commit_status` is `unknown` is never selected by
the commit poll (which takes only `pending`/`failed`), so any number of
subsequent automatic poll cycles leaves the capture — in particular its
`commit_status` and its external task identifiers — exactly unchanged. -/
theorem commit_unknown_is_trap (env : CommitEnv) (now : Int) (c : Capture)
    (h : c.commit_status = "unknown") :
    ∀ n : Nat, (commit_poll_step env now)^[n] c = c ∧
      ((commit_poll_step env now)^[n] c).commit_status = "unknown" ∧
      ((commit_poll_step env now)^[n] c).rtm_task_id = c.rtm_task_id ∧
      ((commit_poll_step env now)^[n] c).rtm_taskseries_id = c.rtm_taskseries_id ∧
      ((commit_poll_step env now)^[n] c).rtm_list_id = c.rtm_list_id := by
  have hsel : selected_for_commit c = false := by
    unfold selected_for_commit
    rw [h]
    rw [show (("unknown" : String) == "pending" || ("unknown" : String) == "failed") = false
      from rfl]
    exact Bool.and_false _
  have hfix : commit_poll_step env now c = c := by
    unfold commit_poll_step
    rw [hsel]
    simp
  intro n
  rw [Function.iterate_fixed hfix n]
  exact ⟨rfl, h, rfl, rfl, rfl⟩

/-- Witness for C1 at a concrete capture and three poll cycles. -/
theorem commit_unknown_is_trap_witness :
    (commit_poll_step envOkC 0)^[3] unknownCap = unknownCap ∧
      ((commit_poll_step envOkC 0)^[3] unknownCap).commit_status = "unknown" :=
  ⟨(commit_unknown_is_trap envOkC 0 unknownCap rfl 3).1,
   (commit_unknown_is_trap envOkC 0 unknownCap rfl 3).2.1⟩

/-! ## C8 — decision transitions only from `proposed` -/
/-- C8: `decision_status` moves only `proposed → approved` and
`proposed → rejected`; invoking either route on a capture that is not
`proposed` raises (HTTP 400) and leaves the stored capture unchanged. -/
theorem decision_status_one_way (form : Option FormData) (now : Int) (c : Capture) :
    (∀ c', approve_capture form now c = Except.ok c' →
      c.decision_status = "proposed" ∧ c'.decision_status = "approved") ∧
    (∀ c', reject_capture form now c = Except.ok c' →
      c.decision_status = "proposed" ∧ c'.decision_status = "rejected") ∧
    (c.decision_status ≠ "proposed" →
      approve_capture form now c = Except.error ("Capture is already " ++ c.decision_status) ∧
      reject_capture form now c = Except.error ("Capture is already " ++ c.decision_status) ∧
      apply_approve form now c = c ∧ apply_reject form now c = c) := by
  by_cases h : c.decision_status = "proposed"
  · refine ⟨?_, ?_, fun hne => absurd h hne⟩
    · intro c' hok
      unfold approve_capture at hok
      rw [if_neg (by simp [h])] at hok
      cases form <;> simp only [Except.ok.injEq] at hok <;> rw [← hok] <;> exact ⟨h, rfl⟩
    · intro c' hok
      unfold reject_capture at hok
      rw [if_neg (by simp [h])] at hok
      cases form <;> simp only [Except.ok.injEq] at hok <;> rw [← hok] <;> exact ⟨h, rfl⟩
  · refine ⟨?_, ?_, fun _ => ?_⟩
    · intro c' hok
      unfold approve_capture at hok
      rw [if_pos h] at hok
      exact absurd hok (by simp)
    · intro c' hok
      unfold reject_capture at hok
      rw [if_pos h] at hok
      exact absurd hok (by simp)
    · have ha : approve_capture form now c = Except.error ("Capture is already " ++ c.decision_status) := by
        unfold approve_capture
        rw [if_pos h]
      have hr : reject_capture form now c = Except.error ("Capture is already " ++ c.decision_status) := by
        unfold reject_capture
        rw [if_pos h]
      refine ⟨ha, hr, ?_, ?_⟩
      · unfold apply_approve
        rw [ha]
      · unfold apply_reject
        rw [hr]

/-- Witness for C8: a rejected capture can be neither approved nor
re-rejected, and stays unchanged. -/
theorem decision_status_one_way_witness :
    apply_approve none 7 { raw_text := "x", decision_status := "rejected" } =
      { raw_text := "x", decision_status := "rejected" } ∧
    approve_capture none 7 { raw_text := "x", decision_status := "rejected" } =
      Except.error "Capture is already rejected" :=
  ⟨((decision_status_one_way none 7 _).2.2 (by decide)).2.2.1,
   ((decision_status_one_way none 7 _).2.2 (by decide)).1⟩

/-! ## C9 — the anti-nag exclusion of the highlight candidate pool -/
/-- C9: a cached task whose suggestion history contains at least three
suggestions inside the trailing 14-day window (so its cached
`times_suggested` is at least 3 and its `last_suggested_at` — an upper
bound of the history — lies inside the window) is excluded from both
bands of the candidate pool.  (The claim's "unless `last_suggested_at`
is ≥ 14 days old" escape cannot fire for such a task, since the last
suggestion is then inside the window.) -/
theorem anti_nag_excluded (now : Int) (db : List RtmTask) (t : RtmTask)
    (hist : List Int) (l : Int)
    (hcount : t.times_suggested = hist.length)
    (hlast : t.last_suggested_at = some l)
    (hmax : ∀ d ∈ hist, d ≤ l)
    (hwin : MAX_SUGGESTIONS_14D ≤
      (hist.filter
        (fun d => decide (now - (SUGGESTION_WINDOW_DAYS : Int) * DAY_SECONDS ≤ d))).length) :
    t ∉ build_candidate_pool now db := by
  have h3 : MAX_SUGGESTIONS_14D ≤ t.times_suggested := by
    rw [hcount]
    exact le_trans hwin (List.length_filter_le _ _)
  have hrecent : now - (SUGGESTION_WINDOW_DAYS : Int) * DAY_SECONDS ≤ l := by
    have hpos : 0 < (hist.filter
        (fun d => decide (now - (SUGGESTION_WINDOW_DAYS : Int) * DAY_SECONDS ≤ d))).length := by
      have : 0 < MAX_SUGGESTIONS_14D := by decide
      omega
    obtain ⟨d, hd⟩ := List.exists_mem_of_length_pos hpos
    have hd' := List.mem_filter.mp hd
    exact le_trans (of_decide_eq_true hd'.2) (hmax d hd'.1)
  have hnag : anti_nag_keep now t = false := by
    unfold anti_nag_keep
    rw [hlast]
    rw [Bool.or_eq_false_iff]
    constructor
    · exact decide_eq_false (Nat.not_lt.mpr h3)
    · exact decide_eq_false (not_lt.mpr hrecent)
  intro hmem
  unfold build_candidate_pool at hmem
  rcases List.mem_append.mp hmem with hband | hband
  · have hp := (List.mem_filter.mp (List.mem_mergeSort.mp (List.take_subset _ _ hband))).2
    unfold band_a_pred at hp
    rw [hnag] at hp
    simp at hp
  · have hp := (List.mem_filter.mp (List.mem_mergeSort.mp (List.take_subset _ _ hband))).2
    unfold band_b_pred at hp
    rw [hnag] at hp
    simp at hp

/-- Witness for C9 at a concrete task with a concrete 3-suggestion
history inside the window. -/
theorem anti_nag_excluded_witness :
    naggedTask ∉ build_candidate_pool 1000000 [naggedTask] :=
  anti_nag_excluded 1000000 [naggedTask] naggedTask [999000, 998000, 997000] 999000
    rfl rfl (by decide) (by decide)

/-! ## C2 — project clarifications yield exactly two entries, `#na` only
on the second -/
/-- C2: for a clarification of type `project` with a non-empty shortname,
`_compute_commit_entries` returns exactly two entries; the first (the
project record) is built with `include_na = False` and so its tag list
never holds `#na`, the second (the first next action) is built with
`include_na = True` and its tag list always holds `#na`. -/
theorem project_entries_shape (clar : Clar)
    (htype : getStripped clar.type = "project")
    (hshort : upperStr (getStripped clar.project_shortname) ≠ "") :
    ∃ n1 t1 n2 t2,
      compute_commit_entries clar =
        Except.ok
          [(build_smart_add n1 false (getStripped clar.due_date) t1, n1),
           (build_smart_add n2 true (getStripped clar.due_date) t2, n2)] ∧
      "#na" ∉ build_smart_add_tags false t1 ∧
      "#na" ∈ build_smart_add_tags true t2 := by
  simp only [compute_commit_entries, htype, if_true]
  rw [if_neg hshort]
  exact ⟨_, _, _, _, rfl, na_not_mem_tags_false _, na_mem_tags_true _⟩

/-- Witness for C2 at a concrete project clarification. -/
theorem project_entries_shape_witness :
    ∃ n1 t1 n2 t2,
      compute_commit_entries projClar =
        Except.ok
          [(build_smart_add n1 false (getStripped projClar.due_date) t1, n1),
           (build_smart_add n2 true (getStripped projClar.due_date) t2, n2)] ∧
      "#na" ∉ build_smart_add_tags false t1 ∧
      "#na" ∈ build_smart_add_tags true t2 :=
  project_entries_shape projClar (by decide) (by decide)

/-! ## C10 — every non-project clarification yields one `#na` entry -/
/-- Helper: `_compute_commit_entries` on any clarification whose stripped
`type` is not `"project"` (this includes `next_action`, `non_actionable`,
an absent type, and the empty dict that an unparseable payload becomes). -/
theorem compute_entries_non_project (clar : Clar)
    (h : getStripped clar.type ≠ "project") :
    compute_commit_entries clar =
      Except.ok
        [(build_smart_add
            (pyOr (getStripped clar.next_action)
              (pyOr (getStripped clar.clarified_text) "Tehtävä"))
            true (getStripped clar.due_date)
            (pyOr (getStripped clar.next_action)
              (pyOr (getStripped clar.clarified_text) "Tehtävä") ++ " " ++
              lowerStr (" ".intercalate
                [getStripped clar.clarified_text, getStripped clar.project_name,
                 getStripped clar.next_action])),
          pyOr (getStripped clar.next_action)
            (pyOr (getStripped clar.clarified_text) "Tehtävä"))] := by
  simp only [compute_commit_entries]
  rw [if_neg h]

/-- C10: a capture whose clarification is not of type `project` (also
when the payload is absent or unparseable, i.e. the empty dict) gets
exactly one commit entry, named `next_action` else `clarified_text` else
`"Tehtävä"`, always carrying the `#na` tag; and such a capture, once
approved and pending, is selected by the commit poll and committed when
the external calls succeed. -/
theorem non_project_single_entry (c : Capture)
    (h : getStripped (c.clarify_json.getD {}).type ≠ "project") :
    (∃ t,
      compute_commit_entries (c.clarify_json.getD {}) =
        Except.ok
          [(build_smart_add
              (pyOr (getStripped (c.clarify_json.getD {}).next_action)
                (pyOr (getStripped (c.clarify_json.getD {}).clarified_text) "Tehtävä"))
              true (getStripped (c.clarify_json.getD {}).due_date) t,
            pyOr (getStripped (c.clarify_json.getD {}).next_action)
              (pyOr (getStripped (c.clarify_json.getD {}).clarified_text) "Tehtävä"))] ∧
      "#na" ∈ build_smart_add_tags true t) ∧
    (∀ now : Int, c.decision_status = "approved" → c.commit_status = "pending" →
      selected_for_commit c = true ∧
      (commit_poll_step envOkC now c).commit_status = "committed") := by
  constructor
  · exact ⟨_, compute_entries_non_project _ h, na_mem_tags_true _⟩
  · intro now hdec hcom
    have hsel : selected_for_commit c = true := by
      unfold selected_for_commit
      rw [hdec, hcom]
      rfl
    refine ⟨hsel, ?_⟩
    have hstep : commit_one_capture envOkC now c =
        Except.ok
          ({ c with
              commit_attempt_count := c.commit_attempt_count + 1,
              last_commit_attempt_at := some now,
              commit_status := "committed",
              commit_error_message := none,
              rtm_task_id := some "T1",
              rtm_taskseries_id := some "S1",
              rtm_list_id := some "L1" },
            [CEvent.external "rtm.timelines.create", CEvent.external "rtm.tasks.add",
             CEvent.persist { c with
              commit_attempt_count := c.commit_attempt_count + 1,
              last_commit_attempt_at := some now,
              commit_status := "committed",
              commit_error_message := none,
              rtm_task_id := some "T1",
              rtm_taskseries_id := some "S1",
              rtm_list_id := some "L1" }]) := by
      unfold commit_one_capture
      rw [if_neg (fun hc => h hc.1), compute_entries_non_project _ h]
      rfl
    unfold commit_poll_step
    rw [hsel, if_pos rfl]
    unfold commit_one_result
    rw [hstep]

/-- Witness for C10 at a capture whose payload failed to parse
(`clarify_json = None` ⇒ the empty dict). -/
theorem non_project_single_entry_witness :
    (∃ t,
      compute_commit_entries (plainCap.clarify_json.getD {}) =
        Except.ok [(build_smart_add "Tehtävä" true "" t, "Tehtävä")] ∧
      "#na" ∈ build_smart_add_tags true t) ∧
    (commit_poll_step envOkC 3 plainCap).commit_status = "committed" := by
  refine ⟨?_, ?_⟩
  · exact (non_project_single_entry plainCap (by decide)).1
  · exact ((non_project_single_entry plainCap (by decide)).2 3 rfl rfl).2

/-- C3, evaluated at the failing input: the code marks the capture
`commit_status = "failed"` (not a terminal state), does not increment
`commit_attempt_count`, and the very next poll cycle selects it again —
and keeps doing so forever (the state is a fixpoint of the poll step, so
it never reaches `permanently_failed` either).  This contradicts the
claimed "permanent, non-retryable terminal failure": the branch's own
comment calls it "a permanent error", yet the status it writes is one the
poll query retries. -/
theorem missing_shortname_is_retried_forever :
    (commit_one_result envOkC 5 missingShortCap).commit_status = "failed" ∧
    (commit_one_result envOkC 5 missingShortCap).commit_attempt_count = 0 ∧
    (commit_one_result envOkC 5 missingShortCap).commit_error_message =
      some "Missing project_shortname in clarification" ∧
    selected_for_commit (commit_one_result envOkC 5 missingShortCap) = true ∧
    commit_poll_step envOkC 5 (commit_one_result envOkC 5 missingShortCap) =
      commit_one_result envOkC 5 missingShortCap ∧
    (commit_one_result envOkC 5 missingShortCap).commit_status ≠ "permanently_failed" := by
  refine ⟨rfl, rfl, rfl, rfl, ?_, by decide⟩
  decide

/-- Counterexample to C5 as stated: a capture whose fifth (= max_retries)
attempt succeeds ends with `clarify_attempt_count = 5 ≥ max_retries` and
`clarify_status = "completed"`, not `"permanently_failed"`. -/
theorem clarify_attempts_at_max_not_always_permanent :
    MAX_CLARIFY_ATTEMPTS ≤ (clarify_poll_step envClarOk 1000000 fourFailCap).clarify_attempt_count ∧
    (clarify_poll_step envClarOk 1000000 fourFailCap).clarify_status = "completed" ∧
    (clarify_poll_step envClarOk 1000000 fourFailCap).clarify_status ≠ "permanently_failed" := by
  refine ⟨by decide, rfl, by decide⟩

/-- C5 (amended): a capture whose clarification *attempt fails* once the
incremented attempt count reaches `max_retries` is marked
`permanently_failed`; and a `permanently_failed` capture is never
selected by the clarification poll again, so no later cycle moves it
back to `pending` or `failed`.  (A capture that *succeeds* on its final
allowed attempt instead ends `completed` with the same count.) -/
theorem clarify_permanently_failed_trap :
    (∀ (env : ClarifyEnv) (now : Int) (c : Capture),
      (selected_for_clarify c && should_retry_clarification c now) = true →
      env.result = none →
      MAX_CLARIFY_ATTEMPTS ≤ c.clarify_attempt_count + 1 →
      (clarify_poll_step env now c).clarify_status = "permanently_failed") ∧
    (∀ (env : ClarifyEnv) (now : Int) (c : Capture),
      c.clarify_status = "permanently_failed" →
      ∀ n : Nat, (clarify_poll_step env now)^[n] c = c) := by
  constructor
  · intro env now c hsel hres hmax
    unfold clarify_poll_step
    rw [hsel, if_pos rfl]
    unfold clarify_capture_step
    rw [hres]
    simp only []
    rw [if_pos (by simpa using hmax)]
  · intro env now c h n
    have hsel : selected_for_clarify c = false := by
      unfold selected_for_clarify
      rw [h]
      rw [show (("permanently_failed" : String) == "pending" ||
        ("permanently_failed" : String) == "failed") = false from rfl]
      exact Bool.and_false _
    have hfix : clarify_poll_step env now c = c := by
      unfold clarify_poll_step
      rw [hsel, Bool.false_and]
      simp
    exact Function.iterate_fixed hfix n

/-- Witness for the amended C5: a fifth consecutive failure lands in
`permanently_failed`, and a `permanently_failed` capture is untouched by
two further poll cycles. -/
theorem clarify_permanently_failed_trap_witness :
    (clarify_poll_step envClarFail 1000000 fourFailCap).clarify_status = "permanently_failed" ∧
    (clarify_poll_step envClarFail 1000000)^[2] permFailedCap = permFailedCap :=
  ⟨clarify_permanently_failed_trap.1 envClarFail 1000000 fourFailCap (by decide) rfl (by decide),
   clarify_permanently_failed_trap.2 envClarFail 1000000 permFailedCap rfl 2⟩

/-! ## C4 — when the attempt accounting is persisted -/
theorem attempt_rtm_events (env : CommitEnv) (es : List (String × String)) :
    (attempt_rtm env es).2 = [] ∨
    ∃ rest, (attempt_rtm env es).2 = CEvent.external "rtm.timelines.create" :: rest := by
  unfold attempt_rtm
  rcases env.auth_token with _ | tok
  · left
    rfl
  · rcases env.timeline with e | tl
    · right
      exact ⟨[], rfl⟩
    · right
      exact ⟨(run_add_tasks env 0 es).2, rfl⟩

/-- Shape of a `_commit_one_capture` run: either it issues no external
call at all, or its trace starts with the `create_timeline` call and ends
with a single persisted snapshot carrying the incremented attempt
count. -/
theorem commit_one_capture_shape (env : CommitEnv) (now : Int) (c : Capture) :
    (∃ c' t, commit_one_capture env now c = Except.ok (c', t) ∧
      (t.any CEvent.isExternal = false ∨
       ∃ evs c2, t = CEvent.external "rtm.timelines.create" :: (evs ++ [CEvent.persist c2]) ∧
         c2.commit_attempt_count = c.commit_attempt_count + 1)) ∨
    ∃ m, commit_one_capture env now c = Except.error m := by
  simp only [commit_one_capture]
  by_cases hif : getStripped ((c.clarify_json.getD {}).type) = "project" ∧
      upperStr (getStripped ((c.clarify_json.getD {}).project_shortname)) = ""
  · rw [if_pos hif]
    exact Or.inl ⟨_, _, rfl, Or.inl rfl⟩
  · rw [if_neg hif]
    rcases hce : compute_commit_entries ((c.clarify_json).getD {}) with m | entries
    · exact Or.inr ⟨_, rfl⟩
    · simp only []
      have hevs0 := attempt_rtm_events env entries
      rcases hat : attempt_rtm env entries with ⟨res, evs⟩
      rw [hat] at hevs0
      simp only at hevs0
      cases res with
      | ok created =>
        simp only []
        rcases hh : created.head? with _ | ids0
        · exact Or.inr ⟨_, rfl⟩
        · rcases hevs0 with hnil | ⟨rest, hcons⟩
          · subst hnil
            exact Or.inl ⟨_, _, rfl, Or.inl rfl⟩
          · subst hcons
            exact Or.inl ⟨_, _, rfl, Or.inr ⟨rest, _, List.cons_append _ _ _, rfl⟩⟩
      | error exc =>
        rcases hevs0 with hnil | ⟨rest, hcons⟩
        · subst hnil
          exact Or.inl ⟨_, _, rfl, Or.inl rfl⟩
        · subst hcons
          exact Or.inl ⟨_, _, rfl, Or.inr ⟨rest, _, List.cons_append _ _ _, rfl⟩⟩

/-- Counterexample to C4 as stated: on this commit run the worker issues
external calls, yet **no** snapshot at all — in particular none with the
incremented `commit_attempt_count` — was committed to the store before
the first external call (the increment happens only in memory; the first
persist comes after the RTM calls). -/
theorem commit_attempt_not_persisted_before_call_cex :
    (commitTrace envOkC 9 nextActionCap).any CEvent.isExternal = true ∧
    persists_before_first_external (commitTrace envOkC 9 nextActionCap) = [] := by
  exact ⟨rfl, rfl⟩

/-- C4 (amended): the commit worker increments the attempt count and
timestamp in memory before the external call but persists nothing until
after the call: whenever a commit run issues an external call, no
snapshot is committed to the store before the first such call, and the
run's last event is a persisted snapshot carrying the incremented
`commit_attempt_count`.  The clarification worker, in contrast, persists
`in_progress` and the incremented attempt count *before* its provider
call, as the claim describes. -/
theorem commit_attempt_persisted_only_after_external :
    (∀ (env : CommitEnv) (now : Int) (c : Capture),
      (commitTrace env now c).any CEvent.isExternal = true →
      persists_before_first_external (commitTrace env now c) = []) ∧
    (∀ (env : CommitEnv) (now : Int) (c : Capture),
      (commitTrace env now c).any CEvent.isExternal = true →
      ∃ s, (commitTrace env now c).getLast? = some (CEvent.persist s) ∧
        s.commit_attempt_count = c.commit_attempt_count + 1) ∧
    (∀ (env : ClarifyEnv) (now : Int) (c : Capture),
      (selected_for_clarify c && should_retry_clarification c now) = true →
      ∃ s rest, clarifyTrace env now c =
        CEvent.persist s :: CEvent.external "llm" :: rest ∧
        s.clarify_attempt_count = c.clarify_attempt_count + 1 ∧
        s.clarify_status = "in_progress") := by
  refine ⟨?_, ?_, ?_⟩
  · intro env now c hext
    rcases commit_one_capture_shape env now c with ⟨c', t, hok, hshape⟩ | ⟨m, herr⟩
    · have ht : commitTrace env now c = t := by
        unfold commitTrace
        rw [hok]
      rcases hshape with hno | ⟨evs, c2, hcons, _⟩
      · rw [ht] at hext
        rw [hno] at hext
        exact absurd hext (by simp)
      · rw [ht, hcons]
        rfl
    · have ht : commitTrace env now c = [] := by
        unfold commitTrace
        rw [herr]
      rw [ht] at hext
      exact absurd hext (by simp)
  · intro env now c hext
    rcases commit_one_capture_shape env now c with ⟨c', t, hok, hshape⟩ | ⟨m, herr⟩
    · have ht : commitTrace env now c = t := by
        unfold commitTrace
        rw [hok]
      rcases hshape with hno | ⟨evs, c2, hcons, hcnt⟩
      · rw [ht, hno] at hext
        exact absurd hext (by simp)
      · refine ⟨c2, ?_, hcnt⟩
        rw [ht, hcons, ← List.cons_append, List.getLast?_concat]
    · have ht : commitTrace env now c = [] := by
        unfold commitTrace
        rw [herr]
      rw [ht] at hext
      exact absurd hext (by simp)
  · intro env now c hsel
    unfold clarifyTrace
    rw [hsel, if_pos rfl]
    unfold clarify_capture_step
    rcases env.result with _ | r
    · simp only []
      by_cases hM : MAX_CLARIFY_ATTEMPTS ≤ c.clarify_attempt_count + 1
      · rw [if_pos (by simpa using hM)]
        exact ⟨_, _, rfl, rfl, rfl⟩
      · rw [if_neg (by simpa using hM)]
        exact ⟨_, _, rfl, rfl, rfl⟩
    · exact ⟨_, _, rfl, rfl, rfl⟩

/-- Witness for the amended C4: the commit run for `nextActionCap` calls
out first and persists the incremented count only at the end, while the
clarification run for `fourFailCap` persists its `in_progress` snapshot
before calling the LLM. -/
theorem commit_attempt_persisted_only_after_external_witness :
    persists_before_first_external (commitTrace envOkC 9 nextActionCap) = [] ∧
    (∃ s, (commitTrace envOkC 9 nextActionCap).getLast? = some (CEvent.persist s) ∧
      s.commit_attempt_count = nextActionCap.commit_attempt_count + 1) ∧
    (∃ s rest, clarifyTrace envClarFail 1000000 fourFailCap =
      CEvent.persist s :: CEvent.external "llm" :: rest ∧
      s.clarify_attempt_count = fourFailCap.clarify_attempt_count + 1 ∧
      s.clarify_status = "in_progress") :=
  ⟨commit_attempt_persisted_only_after_external.1 envOkC 9 nextActionCap rfl,
   commit_attempt_persisted_only_after_external.2.1 envOkC 9 nextActionCap rfl,
   commit_attempt_persisted_only_after_external.2.2 envClarFail 1000000 fourFailCap (by decide)⟩

/-- Counterexample to C6 as stated: on a run with proposed captures and
no valid anchor, the code queries the external system *first*; the new
anchor row is persisted only after the query, so the claimed order
"create and persist the new anchor row first, and only then query" is
false (`rtmGetList` is the head of the trace and precedes
`persistNewAnchor`). -/
theorem anchor_row_not_persisted_before_query_cex :
    ensure_anchor_for_pending_approvals anchorEnvFound =
      [AEvent.rtmGetList, AEvent.persistExpire, AEvent.persistNewAnchor,
       AEvent.persistState "already_exists"] ∧
    ¬ (ensure_anchor_for_pending_approvals anchorEnvFound).indexOf AEvent.persistNewAnchor <
        (ensure_anchor_for_pending_approvals anchorEnvFound).indexOf AEvent.rtmGetList := by
  exact ⟨rfl, by decide⟩

/-- C6 (amended): with proposed captures, no valid active anchor and auth
present, the run queries the external system for an existing incomplete
task with the exact reminder name *first* (aborting with no store write
when the query fails); then it expires stale anchors and persists the new
anchor row; then, per the earlier query result, it records
`already_exists` without any creation call, or issues the creation calls
— after the row is durable — and records `committed` on success or
`unknown` on failure.  A later run that finds a valid active anchor does
nothing, so a recorded `unknown` is never retried automatically. -/
theorem anchor_manager_order (env : AnchorEnv) :
    (env.has_proposed = true → env.has_active_anchor = false →
      (∀ tok, env.auth_token = some tok →
        ((∀ e, env.exists_check = Except.error e →
            ensure_anchor_for_pending_approvals env = [AEvent.rtmGetList]) ∧
         (env.exists_check = Except.ok true →
            ensure_anchor_for_pending_approvals env =
              [AEvent.rtmGetList, AEvent.persistExpire, AEvent.persistNewAnchor,
               AEvent.persistState "already_exists"]) ∧
         (env.exists_check = Except.ok false →
            ((∀ e, env.timeline = Except.error e →
                ensure_anchor_for_pending_approvals env =
                  [AEvent.rtmGetList, AEvent.persistExpire, AEvent.persistNewAnchor,
                   AEvent.rtmCreateTimeline, AEvent.persistState "unknown"]) ∧
             (∀ tl e, env.timeline = Except.ok tl → env.add_task = Except.error e →
                ensure_anchor_for_pending_approvals env =
                  [AEvent.rtmGetList, AEvent.persistExpire, AEvent.persistNewAnchor,
                   AEvent.rtmCreateTimeline, AEvent.rtmAddTask, AEvent.persistState "unknown"]) ∧
             (∀ tl ids, env.timeline = Except.ok tl → env.add_task = Except.ok ids →
                ensure_anchor_for_pending_approvals env =
                  [AEvent.rtmGetList, AEvent.persistExpire, AEvent.persistNewAnchor,
                   AEvent.rtmCreateTimeline, AEvent.rtmAddTask,
                   AEvent.persistState "committed"])))))) ∧
    (env.has_active_anchor = true → ensure_anchor_for_pending_approvals env = []) := by
  constructor
  · intro hp ha tok htok
    refine ⟨?_, ?_, ?_⟩
    · intro e he
      simp [ensure_anchor_for_pending_approvals, hp, ha, htok, he]
    · intro he
      simp [ensure_anchor_for_pending_approvals, hp, ha, htok, he]
    · intro he
      refine ⟨?_, ?_, ?_⟩
      · intro e htl
        simp [ensure_anchor_for_pending_approvals, hp, ha, htok, he, htl]
      · intro tl e htl hadd
        simp [ensure_anchor_for_pending_approvals, hp, ha, htok, he, htl, hadd]
      · intro tl ids htl hadd
        simp [ensure_anchor_for_pending_approvals, hp, ha, htok, he, htl, hadd]
  · intro ha
    simp [ensure_anchor_for_pending_approvals, ha]

/-- Witness for the amended C6 at two concrete runs: the probe-found run
records `already_exists` with no creation call, and the fresh run
persists the row before creating and records `committed`. -/
theorem anchor_manager_order_witness :
    ensure_anchor_for_pending_approvals anchorEnvFound =
      [AEvent.rtmGetList, AEvent.persistExpire, AEvent.persistNewAnchor,
       AEvent.persistState "already_exists"] ∧
    ensure_anchor_for_pending_approvals anchorEnvFresh =
      [AEvent.rtmGetList, AEvent.persistExpire, AEvent.persistNewAnchor,
       AEvent.rtmCreateTimeline, AEvent.rtmAddTask, AEvent.persistState "committed"] :=
  ⟨(((anchor_manager_order anchorEnvFound).1 rfl rfl "tok" rfl).2.1 rfl),
   (((anchor_manager_order anchorEnvFresh).1 rfl rfl "tok" rfl).2.2 rfl).2.2 "tl1"
      { task_id := some "T9", taskseries_id := some "S9", list_id := some "L9" } rfl rfl⟩

/-! ## C7 — the busy-retry policy of `transactional_session` is dead
code under the context-manager protocol -/

/-- C7, evaluated at the failing input: when the first `session.commit()`
of a `with transactional_session(session): pass` block fails with the
busy signature, the commit is attempted exactly once, a single 0.1-second
sleep happens, and the statement raises `contextlib`'s `RuntimeError`
(the generator yielded a second time) — never the claimed up-to-five
retries re-raising the last storage error.  The tail of the outcome
sequence is irrelevant (`outsBusy2` and `outsBusyAll` behave
identically), confirming no later commit attempt is consulted.  The
non-busy half of the claim does hold: a failure without the busy
signature is re-raised immediately with no sleep, and a successful first
commit completes normally. -/
theorem transactional_session_busy_never_retried :
    with_transactional_session outsBusy2 5 = TxResult.generatorDidNotStop [txDelay 1] ∧
    with_transactional_session outsBusyAll 5 = TxResult.generatorDidNotStop [txDelay 1] ∧
    txDelay 1 = 1 / 10 ∧
    with_transactional_session outsPlainFail 5 =
      TxResult.raised "UNIQUE constraint failed" [] ∧
    with_transactional_session outsAllOk 5 = TxResult.committed [] := by
  refine ⟨rfl, rfl, by norm_num [txDelay], rfl, rfl⟩

end GTD
